import Mathlib

/-!
Verification of the resilient external-access layer of the jGrants subsidy
search repository (`src/app.py`, `src/app_simple.py`).

The Python source is shallowly embedded: pure string manipulation becomes
Lean string functions, network interactions become explicit outcome
parameters (one outcome per attempt), and the retry loop of
`call_jgrants_api` becomes a fuel-indexed recursion whose fuel equals the
number of remaining loop iterations.  JSON values are modelled by the
inductive `Json` below; Python dictionaries whose keys are strings are
modelled as association lists with Python's insert-or-overwrite update.
External library behaviour (`float()`, `json.loads`, number formatting) is
passed in as explicit function parameters, never hard-coded.
-/

/-- JSON values, as produced by `response.json()` / `json.loads`. -/
inductive Json where
  | null : Json
  | bool (b : Bool) : Json
  | num (n : Int) : Json
  | str (s : String) : Json
  | arr (elems : List Json) : Json
  | obj (fields : List (String × Json)) : Json

/-- The dictionary `\x7b"error": msg\x7d` that every failure path of the two
clients constructs. -/
def errDict (msg : String) : Json :=
  Json.obj [("error", Json.str msg)]

/-- Python string slicing `s[:n]` (by code point), used for `[:50]` and
`[:200]` truncations in the source. -/
def pySlice (s : String) (n : Nat) : String :=
  ⟨s.data.take n⟩

/-- Python truthiness of a JSON value (`if not params["keyword"]`). -/
def Json.truthy : Json → Bool
  | .null => false
  | .bool b => b
  | .num n => n != 0
  | .str s => s ≠ ""
  | .arr elems => !elems.isEmpty
  | .obj fields => !fields.isEmpty

/-- Lookup in a Python dict modelled as an association list
(`params.get(k)` / `k in params`). -/
def dictGet (d : List (String × Json)) (k : String) : Option Json :=
  match d with
  | [] => none
  | (k', v) :: rest => if k' = k then some v else dictGet rest k

/-- Python dict assignment `d[k] = v`: overwrite in place if the key exists,
append otherwise. -/
def dictSet (d : List (String × Json)) (k : String) (v : Json) :
    List (String × Json) :=
  match d with
  | [] => [(k, v)]
  | (k', v') :: rest =>
      if k' = k then (k, v) :: rest else (k', v') :: dictSet rest k v

/-! ## `src/app.py` — the retrying API client `call_jgrants_api` -/

/-- One network attempt's outcome, covering exactly the branches of the
`try`/`except` ladder in `call_jgrants_api` (src/app.py lines 59-127):
a 2xx response with parseable JSON, a 2xx response whose body fails
`response.json()`, the three specific `httpx` exception classes, an
`HTTPStatusError` from `raise_for_status` (carrying the status code and the
optional body excerpt `e.response.text`, `none` when reading it raised),
and the defensive `except Exception` catch-all. -/
inductive Outcome where
  | jsonOk (data : Json) : Outcome
  | jsonParseFail (msg : String) (text : String) : Outcome
  | connectTimeout : Outcome
  | readTimeout : Outcome
  | connectFail (msg : String) : Outcome
  | httpStatus (code : Nat) (text : Option String) : Outcome
  | otherExc (msg : String) : Outcome

/-- Result of running `call_jgrants_api`: the returned value, the number of
attempts made, and the list of backoff delays (in seconds) slept between
attempts, in order. -/
structure RunResult where
  result : Json
  attempts : Nat
  sleeps : List Nat

/-- Message returned after the `for` loop exhausts (src/app.py line 129). -/
def maxRetryMsg : String := "最大リトライ回数に達しました"

/-- Connect-timeout terminal message (line 92). -/
def connectTimeoutMsg : String :=
  "接続タイムアウト: JグランツAPIサーバーへの接続に時間がかかりすぎています"

/-- Read-timeout terminal message (line 98). -/
def readTimeoutMsg : String :=
  "読み取りタイムアウト: APIからのレスポンスに時間がかかりすぎています"

/-- Connect-error terminal message (line 104). -/
def connectFailMsg (m : String) : String :=
  "JグランツAPIに接続できません: " ++ m

/-- The `error_detail` excerpt built at lines 107-111: empty when reading
`e.response.text` raised, otherwise a 200-character excerpt. -/
def detailSuffix : Option String → String
  | none => ""
  | some t => " - " ++ pySlice t 200

/-- HTTP status error message (lines 115 and 121). -/
def httpErrMsg (code : Nat) (text : Option String) : String :=
  "HTTPエラー: " ++ toString code ++ detailSuffix text

/-- Catch-all terminal message (line 127). -/
def otherExcMsg (m : String) : String :=
  "予期しないエラー: " ++ m

/-- JSON-parse failure message (line 86). -/
def jsonParseMsg (m t : String) : String :=
  "JSONパースエラー: " ++ m ++ ", レスポンス: " ++ pySlice t 200

/-- The `for attempt in range(max_retries)` loop of `call_jgrants_api`.
`o i` is the outcome of attempt `i`; `fuel` is the number of remaining
iterations (`max_retries - attempt`), so the `fuel = 0` case is the fall-out
of the loop at line 129.  Each retryable branch re-checks
`attempt < max_retries - 1`; when it holds, the loop sleeps `2 ** attempt`
seconds and continues, otherwise it returns the branch's terminal error. -/
def apiLoop (o : Nat → Outcome) (max_retries : Nat) :
    Nat → Nat → RunResult
  | 0, attempt =>
      { result := errDict maxRetryMsg, attempts := attempt, sleeps := [] }
  | fuel + 1, attempt =>
      match o attempt with
      | .jsonOk data =>
          { result := data, attempts := attempt + 1, sleeps := [] }
      | .jsonParseFail m t =>
          { result := errDict (jsonParseMsg m t), attempts := attempt + 1,
            sleeps := [] }
      | .connectTimeout =>
          if attempt < max_retries - 1 then
            let r := apiLoop o max_retries fuel (attempt + 1)
            { result := r.result, attempts := r.attempts,
              sleeps := 2 ^ attempt :: r.sleeps }
          else
            { result := errDict connectTimeoutMsg, attempts := attempt + 1,
              sleeps := [] }
      | .readTimeout =>
          if attempt < max_retries - 1 then
            let r := apiLoop o max_retries fuel (attempt + 1)
            { result := r.result, attempts := r.attempts,
              sleeps := 2 ^ attempt :: r.sleeps }
          else
            { result := errDict readTimeoutMsg, attempts := attempt + 1,
              sleeps := [] }
      | .connectFail m =>
          if attempt < max_retries - 1 then
            let r := apiLoop o max_retries fuel (attempt + 1)
            { result := r.result, attempts := r.attempts,
              sleeps := 2 ^ attempt :: r.sleeps }
          else
            { result := errDict (connectFailMsg m), attempts := attempt + 1,
              sleeps := [] }
      | .httpStatus code text =>
          if 400 ≤ code ∧ code < 500 then
            { result := errDict (httpErrMsg code text),
              attempts := attempt + 1, sleeps := [] }
          else if attempt < max_retries - 1 then
            let r := apiLoop o max_retries fuel (attempt + 1)
            { result := r.result, attempts := r.attempts,
              sleeps := 2 ^ attempt :: r.sleeps }
          else
            { result := errDict (httpErrMsg code text),
              attempts := attempt + 1, sleeps := [] }
      | .otherExc m =>
          if attempt < max_retries - 1 then
            let r := apiLoop o max_retries fuel (attempt + 1)
            { result := r.result, attempts := r.attempts,
              sleeps := 2 ^ attempt :: r.sleeps }
          else
            { result := errDict (otherExcMsg m), attempts := attempt + 1,
              sleeps := [] }

/-- `call_jgrants_api(endpoint, params, max_retries)` (src/app.py lines
55-129).  `endpoint` and `params` parametrise the request URL and query
string; they do not influence control flow, which depends only on the
per-attempt network outcomes `o`. -/
def call_jgrants_api (endpoint : String) (params : List (String × String))
    (o : Nat → Outcome) (max_retries : Nat) : RunResult :=
  apiLoop o max_retries max_retries 0

/-- The backoff base implicit in `asyncio.sleep(2 ** attempt)`: one second. -/
def backoffBase : Nat := 1

/-- The retryable causes named by the retry-policy claims: connection
failure, connect-timeout, read-timeout, HTTP 5xx, and any other
transport-level exception. -/
def retryableCause : Outcome → Bool
  | .connectTimeout => true
  | .readTimeout => true
  | .connectFail _ => true
  | .otherExc _ => true
  | .httpStatus code _ => 500 ≤ code && code < 600
  | _ => false

/-- The terminal error message produced when the last attempt fails with
the given outcome (one message per `except` branch). -/
def exhaustMsg : Outcome → String
  | .connectTimeout => connectTimeoutMsg
  | .readTimeout => readTimeoutMsg
  | .connectFail m => connectFailMsg m
  | .httpStatus code text => httpErrMsg code text
  | .otherExc m => otherExcMsg m
  | .jsonOk _ => maxRetryMsg
  | .jsonParseFail m t => jsonParseMsg m t

lemma apiLoop_all_retryable (o : Nat → Outcome) (n : Nat) :
    ∀ fuel attempt, fuel = n - attempt → attempt < n →
    (∀ i, attempt ≤ i → i < n → retryableCause (o i) = true) →
    (apiLoop o n fuel attempt).attempts = n ∧
    (apiLoop o n fuel attempt).result = errDict (exhaustMsg (o (n - 1))) := by
  intro fuel
  induction fuel with
  | zero => intro attempt hf hlt _; omega
  | succ fuel ih =>
    intro attempt hf hlt hr
    have hra := hr attempt le_rfl hlt
    by_cases hcase : attempt < n - 1
    · have hf' : fuel = n - (attempt + 1) := by omega
      have hlt' : attempt + 1 < n := by omega
      have hr' : ∀ i, attempt + 1 ≤ i → i < n → retryableCause (o i) = true :=
        fun i h1 h2 => hr i (by omega) h2
      have IH := ih (attempt + 1) hf' hlt' hr'
      cases ho : o attempt with
      | jsonOk d => rw [ho] at hra; simp [retryableCause] at hra
      | jsonParseFail m t => rw [ho] at hra; simp [retryableCause] at hra
      | connectTimeout =>
          simpa [apiLoop, ho, if_pos hcase] using IH
      | readTimeout =>
          simpa [apiLoop, ho, if_pos hcase] using IH
      | connectFail m =>
          simpa [apiLoop, ho, if_pos hcase] using IH
      | httpStatus code text =>
          rw [ho] at hra
          have h5 : 500 ≤ code ∧ code < 600 := by
            simpa [retryableCause] using hra
          have hnot : ¬ (400 ≤ code ∧ code < 500) := by omega
          simpa [apiLoop, ho, if_neg hnot, if_pos hcase] using IH
      | otherExc m =>
          simpa [apiLoop, ho, if_pos hcase] using IH
    · have hatt : attempt = n - 1 := by omega
      have hoN : o (n - 1) = o attempt := by rw [hatt]
      cases ho : o attempt with
      | jsonOk d => rw [ho] at hra; simp [retryableCause] at hra
      | jsonParseFail m t => rw [ho] at hra; simp [retryableCause] at hra
      | connectTimeout =>
          rw [hoN, ho]
          constructor
          · simp [apiLoop, ho, if_neg hcase]; omega
          · simp [apiLoop, ho, if_neg hcase, exhaustMsg]
      | readTimeout =>
          rw [hoN, ho]
          constructor
          · simp [apiLoop, ho, if_neg hcase]; omega
          · simp [apiLoop, ho, if_neg hcase, exhaustMsg]
      | connectFail m =>
          rw [hoN, ho]
          constructor
          · simp [apiLoop, ho, if_neg hcase]; omega
          · simp [apiLoop, ho, if_neg hcase, exhaustMsg]
      | httpStatus code text =>
          rw [ho] at hra
          have h5 : 500 ≤ code ∧ code < 600 := by
            simpa [retryableCause] using hra
          have hnot : ¬ (400 ≤ code ∧ code < 500) := by omega
          rw [hoN, ho]
          constructor
          · simp [apiLoop, ho, if_neg hnot, if_neg hcase]; omega
          · simp [apiLoop, ho, if_neg hnot, if_neg hcase, exhaustMsg]
      | otherExc m =>
          rw [hoN, ho]
          constructor
          · simp [apiLoop, ho, if_neg hcase]; omega
          · simp [apiLoop, ho, if_neg hcase, exhaustMsg]

lemma apiLoop_attempts_sleeps (o : Nat → Outcome) (n : Nat) :
    ∀ fuel attempt, fuel = n - attempt → attempt ≤ n →
    attempt + min fuel 1 ≤ (apiLoop o n fuel attempt).attempts ∧
    (apiLoop o n fuel attempt).attempts ≤ n ∧
    (apiLoop o n fuel attempt).sleeps =
      (List.range' attempt ((apiLoop o n fuel attempt).attempts - 1 - attempt)).map
        (fun k => 2 ^ k) := by
  intro fuel
  induction fuel with
  | zero =>
    intro attempt hf hle
    have : attempt = n := by omega
    refine ⟨by simp [apiLoop], by simp [apiLoop]; omega, ?_⟩
    simp [apiLoop]
  | succ fuel ih =>
    intro attempt hf hle
    have hlt : attempt < n := by omega
    by_cases hcase : attempt < n - 1
    · have hf' : fuel = n - (attempt + 1) := by omega
      have hle' : attempt + 1 ≤ n := by omega
      have hfuel1 : 1 ≤ fuel := by omega
      have IH := ih (attempt + 1) hf' hle'
      obtain ⟨IH1, IH2, IH3⟩ := IH
      have hge : attempt + 2 ≤ (apiLoop o n fuel (attempt + 1)).attempts := by
        omega
      have hcount : (apiLoop o n fuel (attempt + 1)).attempts - 1 - attempt =
          ((apiLoop o n fuel (attempt + 1)).attempts - 1 - (attempt + 1)) + 1 := by
        omega
      have hcons : (List.range' attempt
            ((apiLoop o n fuel (attempt + 1)).attempts - 1 - attempt)).map
            (fun k => 2 ^ k) =
          2 ^ attempt :: (List.range' (attempt + 1)
            ((apiLoop o n fuel (attempt + 1)).attempts - 1 - (attempt + 1))).map
            (fun k => 2 ^ k) := by
        rw [hcount, List.range'_succ, List.map_cons]
      cases ho : o attempt with
      | jsonOk d => simp [apiLoop, ho]; omega
      | jsonParseFail m t => simp [apiLoop, ho]; omega
      | connectTimeout =>
          refine ⟨?_, ?_, ?_⟩
          · simp [apiLoop, ho, if_pos hcase]; omega
          · simpa [apiLoop, ho, if_pos hcase] using IH2
          · simp only [apiLoop, ho, if_pos hcase]
            rw [IH3, ← hcons]
      | readTimeout =>
          refine ⟨?_, ?_, ?_⟩
          · simp [apiLoop, ho, if_pos hcase]; omega
          · simpa [apiLoop, ho, if_pos hcase] using IH2
          · simp only [apiLoop, ho, if_pos hcase]
            rw [IH3, ← hcons]
      | connectFail m =>
          refine ⟨?_, ?_, ?_⟩
          · simp [apiLoop, ho, if_pos hcase]; omega
          · simpa [apiLoop, ho, if_pos hcase] using IH2
          · simp only [apiLoop, ho, if_pos hcase]
            rw [IH3, ← hcons]
      | httpStatus code text =>
          by_cases h4 : 400 ≤ code ∧ code < 500
          · simp [apiLoop, ho, if_pos h4]; omega
          · refine ⟨?_, ?_, ?_⟩
            · simp [apiLoop, ho, if_neg h4, if_pos hcase]; omega
            · simpa [apiLoop, ho, if_neg h4, if_pos hcase] using IH2
            · simp only [apiLoop, ho, if_neg h4, if_pos hcase]
              rw [IH3, ← hcons]
      | otherExc m =>
          refine ⟨?_, ?_, ?_⟩
          · simp [apiLoop, ho, if_pos hcase]; omega
          · simpa [apiLoop, ho, if_pos hcase] using IH2
          · simp only [apiLoop, ho, if_pos hcase]
            rw [IH3, ← hcons]
    · cases ho : o attempt with
      | jsonOk d => simp [apiLoop, ho]; omega
      | jsonParseFail m t => simp [apiLoop, ho]; omega
      | connectTimeout => simp [apiLoop, ho, if_neg hcase]; omega
      | readTimeout => simp [apiLoop, ho, if_neg hcase]; omega
      | connectFail m => simp [apiLoop, ho, if_neg hcase]; omega
      | httpStatus code text =>
          by_cases h4 : 400 ≤ code ∧ code < 500
          · simp [apiLoop, ho, if_pos h4]; omega
          · simp [apiLoop, ho, if_neg h4, if_neg hcase]; omega
      | otherExc m => simp [apiLoop, ho, if_neg hcase]; omega

lemma apiLoop_result_shape (o : Nat → Outcome) (n : Nat) :
    ∀ fuel attempt,
    (∃ i d, i < (apiLoop o n fuel attempt).attempts ∧ o i = Outcome.jsonOk d ∧
        (apiLoop o n fuel attempt).result = d) ∨
    (∃ m, (apiLoop o n fuel attempt).result = errDict m) := by
  intro fuel
  induction fuel with
  | zero => intro attempt; right; exact ⟨maxRetryMsg, rfl⟩
  | succ fuel ih =>
    intro attempt
    cases ho : o attempt with
    | jsonOk d =>
        left
        exact ⟨attempt, d, by simp [apiLoop, ho], ho, by simp [apiLoop, ho]⟩
    | jsonParseFail m t =>
        right; exact ⟨jsonParseMsg m t, by simp [apiLoop, ho]⟩
    | connectTimeout =>
        by_cases hcase : attempt < n - 1
        · rcases ih (attempt + 1) with ⟨i, d, hi, hoi, hres⟩ | ⟨m, hres⟩
          · left
            exact ⟨i, d, by simpa [apiLoop, ho, if_pos hcase] using hi, hoi,
              by simpa [apiLoop, ho, if_pos hcase] using hres⟩
          · right
            exact ⟨m, by simpa [apiLoop, ho, if_pos hcase] using hres⟩
        · right
          exact ⟨connectTimeoutMsg, by simp [apiLoop, ho, if_neg hcase]⟩
    | readTimeout =>
        by_cases hcase : attempt < n - 1
        · rcases ih (attempt + 1) with ⟨i, d, hi, hoi, hres⟩ | ⟨m, hres⟩
          · left
            exact ⟨i, d, by simpa [apiLoop, ho, if_pos hcase] using hi, hoi,
              by simpa [apiLoop, ho, if_pos hcase] using hres⟩
          · right
            exact ⟨m, by simpa [apiLoop, ho, if_pos hcase] using hres⟩
        · right
          exact ⟨readTimeoutMsg, by simp [apiLoop, ho, if_neg hcase]⟩
    | connectFail msg =>
        by_cases hcase : attempt < n - 1
        · rcases ih (attempt + 1) with ⟨i, d, hi, hoi, hres⟩ | ⟨m, hres⟩
          · left
            exact ⟨i, d, by simpa [apiLoop, ho, if_pos hcase] using hi, hoi,
              by simpa [apiLoop, ho, if_pos hcase] using hres⟩
          · right
            exact ⟨m, by simpa [apiLoop, ho, if_pos hcase] using hres⟩
        · right
          exact ⟨connectFailMsg msg, by simp [apiLoop, ho, if_neg hcase]⟩
    | httpStatus code text =>
        by_cases h4 : 400 ≤ code ∧ code < 500
        · right; exact ⟨httpErrMsg code text, by simp [apiLoop, ho, if_pos h4]⟩
        · by_cases hcase : attempt < n - 1
          · rcases ih (attempt + 1) with ⟨i, d, hi, hoi, hres⟩ | ⟨m, hres⟩
            · left
              exact ⟨i, d,
                by simpa [apiLoop, ho, if_neg h4, if_pos hcase] using hi, hoi,
                by simpa [apiLoop, ho, if_neg h4, if_pos hcase] using hres⟩
            · right
              exact ⟨m, by simpa [apiLoop, ho, if_neg h4, if_pos hcase] using hres⟩
          · right
            exact ⟨httpErrMsg code text,
              by simp [apiLoop, ho, if_neg h4, if_neg hcase]⟩
    | otherExc msg =>
        by_cases hcase : attempt < n - 1
        · rcases ih (attempt + 1) with ⟨i, d, hi, hoi, hres⟩ | ⟨m, hres⟩
          · left
            exact ⟨i, d, by simpa [apiLoop, ho, if_pos hcase] using hi, hoi,
              by simpa [apiLoop, ho, if_pos hcase] using hres⟩
          · right
            exact ⟨m, by simpa [apiLoop, ho, if_pos hcase] using hres⟩
        · right
          exact ⟨otherExcMsg msg, by simp [apiLoop, ho, if_neg hcase]⟩

/-- C2: for every endpoint, parameter mapping, and retry budget `n ≥ 1`
(default 3), if every attempt fails with a retryable cause (connection
failure, connect-timeout, read-timeout, HTTP 5xx, or any other
transport-level exception), then `call_jgrants_api` makes exactly `n`
attempts and returns the terminal error dictionary describing the last
attempt's failure. -/
theorem retry_exhausts_attempts_on_retryable_failures (endpoint : String)
    (params : List (String × String)) (o : Nat → Outcome) (n : Nat)
    (hn : 1 ≤ n) (hfail : ∀ i, i < n → retryableCause (o i) = true) :
    (call_jgrants_api endpoint params o n).attempts = n ∧
    (call_jgrants_api endpoint params o n).result =
      errDict (exhaustMsg (o (n - 1))) := by
  have h := apiLoop_all_retryable o n n 0 (by omega) (by omega)
    (fun i _ h2 => hfail i h2)
  simpa [call_jgrants_api] using h

/-- Witness for C2: three connect-timeouts in a row exhaust the default
budget of 3 attempts and surface the connect-timeout terminal error. -/
theorem retry_exhausts_attempts_on_retryable_failures_witness :
    (call_jgrants_api "/subsidies" [] (fun _ => Outcome.connectTimeout) 3).attempts = 3 ∧
    (call_jgrants_api "/subsidies" [] (fun _ => Outcome.connectTimeout) 3).result =
      errDict (exhaustMsg Outcome.connectTimeout) :=
  retry_exhausts_attempts_on_retryable_failures "/subsidies" []
    (fun _ => Outcome.connectTimeout) 3 (by decide) (fun i _ => rfl)

/-- C3: an HTTP 4xx on the first attempt makes exactly one attempt in
total, sleeps no backoff, and immediately returns the terminal error
carrying the status code. -/
theorem http4xx_terminal_single_attempt (endpoint : String)
    (params : List (String × String)) (o : Nat → Outcome) (n code : Nat)
    (text : Option String) (hn : 1 ≤ n)
    (h0 : o 0 = Outcome.httpStatus code text) (h4 : 400 ≤ code)
    (h5 : code < 500) :
    (call_jgrants_api endpoint params o n).attempts = 1 ∧
    (call_jgrants_api endpoint params o n).sleeps = [] ∧
    (call_jgrants_api endpoint params o n).result =
      errDict (httpErrMsg code text) := by
  obtain ⟨m, rfl⟩ : ∃ m, n = m + 1 := ⟨n - 1, by omega⟩
  simp only [call_jgrants_api, apiLoop, h0]
  rw [if_pos ⟨h4, h5⟩]
  exact ⟨rfl, rfl, rfl⟩

/-- Witness for C3: a 404 on the first attempt with budget 3. -/
theorem http4xx_terminal_single_attempt_witness :
    (call_jgrants_api "/subsidies" []
      (fun _ => Outcome.httpStatus 404 (some "not found")) 3).attempts = 1 ∧
    (call_jgrants_api "/subsidies" []
      (fun _ => Outcome.httpStatus 404 (some "not found")) 3).sleeps = [] ∧
    (call_jgrants_api "/subsidies" []
      (fun _ => Outcome.httpStatus 404 (some "not found")) 3).result =
      errDict (httpErrMsg 404 (some "not found")) :=
  http4xx_terminal_single_attempt "/subsidies" []
    (fun _ => Outcome.httpStatus 404 (some "not found")) 3 404 (some "not found")
    (by decide) rfl (by decide) (by decide)

/-- C4: the backoff delays slept by `call_jgrants_api` are exactly
`backoffBase * 2 ^ k` for `k = 0, 1, ...` in order — i.e. the delay slept
before attempt `i` (0-indexed, `i ≥ 1`) is `backoffBase * 2 ^ (i - 1)` —
successive delays are pairwise strictly increasing, and exactly
`attempts - 1` delays are slept, so none follows the final attempt. -/
theorem backoff_schedule_exponential (endpoint : String)
    (params : List (String × String)) (o : Nat → Outcome) (n : Nat) :
    (call_jgrants_api endpoint params o n).sleeps =
      (List.range ((call_jgrants_api endpoint params o n).attempts - 1)).map
        (fun k => backoffBase * 2 ^ k) ∧
    (call_jgrants_api endpoint params o n).sleeps.Pairwise (· < ·) ∧
    (call_jgrants_api endpoint params o n).sleeps.length =
      (call_jgrants_api endpoint params o n).attempts - 1 := by
  have h := (apiLoop_attempts_sleeps o n n 0 (by omega) (by omega)).2.2
  have hchar : (call_jgrants_api endpoint params o n).sleeps =
      (List.range ((call_jgrants_api endpoint params o n).attempts - 1)).map
        (fun k => backoffBase * 2 ^ k) := by
    simpa [call_jgrants_api, List.range_eq_range', backoffBase] using h
  refine ⟨hchar, ?_, ?_⟩
  · rw [hchar]
    refine List.Pairwise.map _ (fun a b hab => ?_) (List.pairwise_lt_range _)
    simp only [backoffBase, one_mul]
    exact Nat.pow_lt_pow_right (by omega) hab
  · rw [hchar]
    simp

/-- C10: for every endpoint path, parameter mapping, and sequence of
attempt outcomes, `call_jgrants_api` returns either the parsed body of a
successful attempt (an HTTP 2xx response with a JSON-parseable body) or a
dictionary containing the key `"error"`; it never propagates an exception
(the embedding is a total function whose every `except` branch produces an
`errDict`). -/
theorem api_result_success_or_error_dict (endpoint : String)
    (params : List (String × String)) (o : Nat → Outcome) (n : Nat) :
    (∃ i d, i < (call_jgrants_api endpoint params o n).attempts ∧
        o i = Outcome.jsonOk d ∧
        (call_jgrants_api endpoint params o n).result = d) ∨
    (∃ m, (call_jgrants_api endpoint params o n).result = errDict m) := by
  simpa [call_jgrants_api] using apiLoop_result_shape o n n 0

/-! ## `src/app_simple.py` — the protocol session client `MCPClient` -/

/-- The state of an `MCPClient` (src/app_simple.py lines 26-32): just the
`session_id` attribute, `none` for Python `None`. -/
structure MCPClient where
  session_id : Option String

/-- Python truthiness of `self.session_id` (`if not self.session_id`):
`None` and the empty string are both falsy. -/
def sessionSet (s : Option String) : Bool :=
  match s with
  | none => false
  | some v => v ≠ ""

/-- Outcome of the `initialize` POST (lines 37-57): either an exception
(caught at line 63), or a response with a status code and the optional
`mcp-session-id` response header. -/
inductive InitOutcome where
  | exc (msg : String) : InitOutcome
  | resp (status : Nat) (sessionHeader : Option String) : InitOutcome

/-- `MCPClient.initialize` (src/app_simple.py lines 34-65): on HTTP 200 it
stores `response.headers.get("mcp-session-id")` (possibly absent) and
returns `True`; on any other status or on an exception it returns `False`
and leaves the state unchanged. -/
def MCPClient.init (c : MCPClient) (o : InitOutcome) : Bool × MCPClient :=
  match o with
  | .exc _ => (false, c)
  | .resp status header =>
      if status = 200 then (true, { session_id := header })
      else (false, c)

/-- The `"text"` field of a tool-response content item, abstracted together
with the behaviour of `json.loads` on it: either it parses to a JSON value
or `json.loads` raises with the given message. -/
inductive TextPayload where
  | parses (j : Json) : TextPayload
  | malformed (msg : String) : TextPayload

/-- One item of `result["result"]["content"]`; `text = none` models an item
without a `"text"` key, for which the source substitutes the default
string, an empty JSON object. -/
structure ContentItem where
  text : Option TextPayload

/-- The `"result"` field of the envelope; `content = none` models a missing
`"content"` key (defaulted to `[]` at line 99). -/
structure ResultField where
  content : Option (List ContentItem)

/-- The `"error"` field of the envelope; `message = none` models a missing
`"message"` key (defaulted to "不明なエラー" at line 104). -/
structure ErrorField where
  message : Option String

/-- The parsed body `response.json()` of a tool call: which of the keys
`"result"` and `"error"` are present, with their payloads.  The source
checks `"result"` first (line 98) and `"error"` only in the `elif`. -/
structure Envelope where
  result : Option ResultField
  error : Option ErrorField

/-- Outcome of the `tools/call` POST (lines 81-94): a response with status
and parsed body, a `requests.ConnectionError` (which also covers connect
timeouts in the `requests` exception hierarchy), or any other exception
(e.g. a read timeout), caught by the generic handler at line 109. -/
inductive ToolHttp where
  | resp (status : Nat) (body : Envelope) : ToolHttp
  | connectionFail : ToolHttp
  | otherExc (msg : String) : ToolHttp

/-- Session error returned when the implicit `initialize` fails (line 72). -/
def sessionErrMsg : String := "MCPサーバーに接続できません"

/-- Message for `requests.ConnectionError` (line 108). -/
def unreachableMsg : String :=
  "MCPサーバーに接続できません。サーバーが起動しているか確認してください。"

/-- Message for the generic exception handler (line 110). -/
def toolExcMsg (m : String) : String := "エラー: " ++ m

/-- HTTP error message for a non-200 tool response (line 106). -/
def toolHttpErrMsg (status : Nat) : String := "HTTPエラー: " ++ toString status

/-- What `call_tool` returns once the tool POST has been made (lines
96-110).  `none` is Python's implicit `None`: with a 200 status, a
`"result"` envelope and an empty (or defaulted) content list, or a body
with neither `"result"` nor `"error"`, no `return` statement executes and
the function falls through. -/
def handleToolResponse (o : ToolHttp) : Option Json :=
  match o with
  | .connectionFail => some (errDict unreachableMsg)
  | .otherExc m => some (errDict (toolExcMsg m))
  | .resp status body =>
      if status = 200 then
        match body.result with
        | some rf =>
            match rf.content.getD [] with
            | [] => none
            | item :: _ =>
                match item.text.getD (TextPayload.parses (Json.obj [])) with
                | .parses j => some j
                | .malformed m => some (errDict (toolExcMsg m))
        | none =>
            match body.error with
            | some ef => some (errDict (ef.message.getD "不明なエラー"))
            | none => none
      else some (errDict (toolHttpErrMsg status))

/-- Result of one `call_tool` invocation: the returned value (`none` =
Python `None`), the client state afterwards, how many times `initialize`
was called, how many tool-invocation POSTs were sent, the session header
attached to the tool POST (`none` when no header was attached or no POST
was made), and the backoff delays slept (the source contains no sleep at
all). -/
structure CallResult where
  ret : Option Json
  client : MCPClient
  initCalls : Nat
  toolPosts : Nat
  sentHeader : Option String
  sleeps : List Nat

/-- `MCPClient.call_tool` (src/app_simple.py lines 67-110).  `tool_name`
and `args` parametrise the request envelope; control flow depends only on
the client state and the network outcomes `io` (for the implicit
`initialize`) and `to` (for the tool POST).  The `mcp-session-id` request
header is attached only when the session identifier is truthy (line 78). -/
def MCPClient.call_tool (c : MCPClient) (tool_name : String) (args : Json)
    (io : InitOutcome) (o : ToolHttp) : CallResult :=
  if sessionSet c.session_id then
    { ret := handleToolResponse o, client := c, initCalls := 0,
      toolPosts := 1,
      sentHeader := if sessionSet c.session_id then c.session_id else none,
      sleeps := [] }
  else
    match c.init io with
    | (true, c1) =>
        { ret := handleToolResponse o, client := c1, initCalls := 1,
          toolPosts := 1,
          sentHeader := if sessionSet c1.session_id then c1.session_id else none,
          sleeps := [] }
    | (false, c1) =>
        { ret := some (errDict sessionErrMsg), client := c1, initCalls := 1,
          toolPosts := 0, sentHeader := none, sleeps := [] }

/-- C5: when the client holds no (truthy) session identifier, `call_tool`
performs exactly one implicit `initialize` handshake; if that handshake
fails, `call_tool` returns the session error and the tool-invocation POST
is never sent, and if it succeeds the tool POST is sent exactly once. -/
theorem call_tool_lazy_init_gate (c : MCPClient) (tool_name : String)
    (args : Json) (io : InitOutcome) (o : ToolHttp)
    (h : sessionSet c.session_id = false) :
    (c.call_tool tool_name args io o).initCalls = 1 ∧
    ((c.init io).1 = false →
      (c.call_tool tool_name args io o).ret = some (errDict sessionErrMsg) ∧
      (c.call_tool tool_name args io o).toolPosts = 0) ∧
    ((c.init io).1 = true →
      (c.call_tool tool_name args io o).toolPosts = 1) := by
  rcases hinit : c.init io with ⟨b, c1⟩
  cases b with
  | false => simp [MCPClient.call_tool, h, hinit]
  | true => simp [MCPClient.call_tool, h, hinit]

/-- Witness for C5: an uninitialized client whose handshake raises. -/
theorem call_tool_lazy_init_gate_witness :
    sessionSet (MCPClient.mk none).session_id = false ∧
    ((MCPClient.mk none).call_tool "ping" (Json.obj [])
        (InitOutcome.exc "refused") (ToolHttp.resp 200 ⟨none, none⟩)).initCalls = 1 ∧
    (((MCPClient.mk none).init (InitOutcome.exc "refused")).1 = false →
      ((MCPClient.mk none).call_tool "ping" (Json.obj [])
          (InitOutcome.exc "refused") (ToolHttp.resp 200 ⟨none, none⟩)).ret =
        some (errDict sessionErrMsg) ∧
      ((MCPClient.mk none).call_tool "ping" (Json.obj [])
          (InitOutcome.exc "refused") (ToolHttp.resp 200 ⟨none, none⟩)).toolPosts = 0) ∧
    (((MCPClient.mk none).init (InitOutcome.exc "refused")).1 = true →
      ((MCPClient.mk none).call_tool "ping" (Json.obj [])
          (InitOutcome.exc "refused") (ToolHttp.resp 200 ⟨none, none⟩)).toolPosts = 1) :=
  ⟨rfl, call_tool_lazy_init_gate (MCPClient.mk none) "ping" (Json.obj [])
    (InitOutcome.exc "refused") (ToolHttp.resp 200 ⟨none, none⟩) rfl⟩

/-- C6 (code evaluation at the failing input): on an HTTP 200 `result`
envelope with a non-empty content list the client returns the parsed text
payload, and on an `error` envelope it returns an error dictionary with the
envelope's message — but on a `result` envelope with an EMPTY content list
`call_tool` falls through every branch and returns Python `None` (`none`),
not the tool error the specification promises, contradicting the declared
`-> Dict[str, Any]` return type. -/
theorem call_tool_empty_content_returns_none :
    ((MCPClient.mk (some "sess")).call_tool "search_subsidies" (Json.obj [])
        (InitOutcome.exc "unused")
        (ToolHttp.resp 200 ⟨some ⟨some []⟩, none⟩)).ret = none ∧
    ((MCPClient.mk (some "sess")).call_tool "search_subsidies" (Json.obj [])
        (InitOutcome.exc "unused")
        (ToolHttp.resp 200
          ⟨some ⟨some [⟨some (TextPayload.parses (Json.arr []))⟩]⟩, none⟩)).ret =
      some (Json.arr []) ∧
    ((MCPClient.mk (some "sess")).call_tool "search_subsidies" (Json.obj [])
        (InitOutcome.exc "unused")
        (ToolHttp.resp 200 ⟨none, some ⟨some "Session terminated"⟩⟩)).ret =
      some (errDict "Session terminated") :=
  ⟨rfl, rfl, rfl⟩

/-- Which tool-POST outcomes are transport-level failures caught by the
`except` handlers of `call_tool`. -/
def transportFail : ToolHttp → Bool
  | .connectionFail => true
  | .otherExc _ => true
  | .resp _ _ => false

/-- The error message each transport-level failure produces:
`requests.ConnectionError` (connection refused, connect timeout) yields the
unreachable-server message; any other exception (e.g. read timeout) is
stringified by the generic handler. -/
def transportFailMsg : ToolHttp → String
  | .connectionFail => unreachableMsg
  | .otherExc m => toolExcMsg m
  | .resp s _ => toolHttpErrMsg s

/-- C7: on any transport-level failure of the tool POST (with the session
either already established or the implicit handshake succeeding),
`call_tool` makes exactly one tool-invocation attempt, sleeps no backoff,
performs at most the one implicit handshake, and returns the transport
error dictionary — for a `requests.ConnectionError` the one describing the
unreachable server; it never retries on its own. -/
theorem call_tool_transport_failure_single_attempt (c : MCPClient)
    (tool_name : String) (args : Json) (io : InitOutcome) (o : ToolHttp)
    (hready : sessionSet c.session_id = true ∨ (c.init io).1 = true)
    (hfail : transportFail o = true) :
    (c.call_tool tool_name args io o).toolPosts = 1 ∧
    (c.call_tool tool_name args io o).sleeps = [] ∧
    (c.call_tool tool_name args io o).initCalls ≤ 1 ∧
    (c.call_tool tool_name args io o).ret =
      some (errDict (transportFailMsg o)) := by
  have hh : handleToolResponse o = some (errDict (transportFailMsg o)) := by
    cases o with
    | resp s b => simp [transportFail] at hfail
    | connectionFail => rfl
    | otherExc m => rfl
  by_cases hs : sessionSet c.session_id = true
  · simp [MCPClient.call_tool, hs, hh]
  · rcases hinit : c.init io with ⟨b, c1⟩
    rcases hready with h | h
    · exact absurd h hs
    · rw [hinit] at h
      subst h
      simp [MCPClient.call_tool, hs, hinit, hh]

/-- Witness for C7: a ready client whose tool POST hits a connection
failure. -/
theorem call_tool_transport_failure_single_attempt_witness :
    sessionSet (MCPClient.mk (some "sess")).session_id = true ∧
    (((MCPClient.mk (some "sess")).call_tool "ping" (Json.obj [])
        (InitOutcome.exc "unused") ToolHttp.connectionFail).toolPosts = 1 ∧
      ((MCPClient.mk (some "sess")).call_tool "ping" (Json.obj [])
        (InitOutcome.exc "unused") ToolHttp.connectionFail).sleeps = [] ∧
      ((MCPClient.mk (some "sess")).call_tool "ping" (Json.obj [])
        (InitOutcome.exc "unused") ToolHttp.connectionFail).initCalls ≤ 1 ∧
      ((MCPClient.mk (some "sess")).call_tool "ping" (Json.obj [])
        (InitOutcome.exc "unused") ToolHttp.connectionFail).ret =
        some (errDict (transportFailMsg ToolHttp.connectionFail))) :=
  ⟨rfl, call_tool_transport_failure_single_attempt (MCPClient.mk (some "sess"))
    "ping" (Json.obj []) (InitOutcome.exc "unused") ToolHttp.connectionFail
    (Or.inl rfl) rfl⟩

/-- C9 counterexample: a ready client (session identifier "sess") receives
a response indicating an invalid/expired session (an `error` envelope with
message "Invalid or expired session"); contrary to the claim, the session
identifier is NOT cleared — the client state is unchanged — and the next
tool call performs no re-initialization. -/
theorem session_retained_on_invalid_session_cex :
    ((MCPClient.mk (some "sess")).call_tool "search_subsidies" (Json.obj [])
        (InitOutcome.exc "unused")
        (ToolHttp.resp 200 ⟨none, some ⟨some "Invalid or expired session"⟩⟩)).ret =
      some (errDict "Invalid or expired session") ∧
    ((MCPClient.mk (some "sess")).call_tool "search_subsidies" (Json.obj [])
        (InitOutcome.exc "unused")
        (ToolHttp.resp 200 ⟨none, some ⟨some "Invalid or expired session"⟩⟩)).client.session_id =
      some "sess" ∧
    ((((MCPClient.mk (some "sess")).call_tool "search_subsidies" (Json.obj [])
        (InitOutcome.exc "unused")
        (ToolHttp.resp 200 ⟨none, some ⟨some "Invalid or expired session"⟩⟩)).client).call_tool
          "search_subsidies" (Json.obj []) (InitOutcome.exc "unused")
          (ToolHttp.resp 200 ⟨none, none⟩)).initCalls = 0 :=
  ⟨rfl, rfl, rfl⟩

/-- C9 amended: once the client holds a truthy session identifier, no
response ever transitions it back to the uninitialized state — `call_tool`
leaves the client state unchanged, so the next call performs no
re-initialization. -/
theorem session_never_invalidated (c : MCPClient) (tool_name : String)
    (args : Json) (io : InitOutcome) (o : ToolHttp)
    (h : sessionSet c.session_id = true) :
    (c.call_tool tool_name args io o).client = c ∧
    (c.call_tool tool_name args io o).initCalls = 0 ∧
    ((c.call_tool tool_name args io o).client.call_tool tool_name args io o).initCalls = 0 := by
  have hcl : (c.call_tool tool_name args io o).client = c := by
    simp [MCPClient.call_tool, h]
  refine ⟨hcl, by simp [MCPClient.call_tool, h], ?_⟩
  rw [hcl]
  simp [MCPClient.call_tool, h]

/-- Witness for C9's amended statement: a ready client receiving an HTTP
404 keeps its session and skips re-initialization. -/
theorem session_never_invalidated_witness :
    sessionSet (MCPClient.mk (some "sess")).session_id = true ∧
    (((MCPClient.mk (some "sess")).call_tool "ping" (Json.obj [])
        (InitOutcome.exc "unused") (ToolHttp.resp 404 ⟨none, none⟩)).client =
      MCPClient.mk (some "sess") ∧
    ((MCPClient.mk (some "sess")).call_tool "ping" (Json.obj [])
        (InitOutcome.exc "unused") (ToolHttp.resp 404 ⟨none, none⟩)).initCalls = 0 ∧
    (((MCPClient.mk (some "sess")).call_tool "ping" (Json.obj [])
        (InitOutcome.exc "unused") (ToolHttp.resp 404 ⟨none, none⟩)).client.call_tool
        "ping" (Json.obj []) (InitOutcome.exc "unused")
        (ToolHttp.resp 404 ⟨none, none⟩)).initCalls = 0) :=
  ⟨rfl, session_never_invalidated (MCPClient.mk (some "sess")) "ping"
    (Json.obj []) (InitOutcome.exc "unused") (ToolHttp.resp 404 ⟨none, none⟩) rfl⟩

/-! ## `src/app.py` — the query extractor `extract_search_params_with_llm` -/

/-- Error returned when no OpenAI API key is configured (line 136). -/
def keyMissingMsg : String := "OpenAI APIキーが設定されていません"

/-- Outcome of the language-understanding call: either some exception
inside the `try` block of lines 138-182 (API error, quota, malformed
output failing `json.loads`, non-dict payload), caught at line 184, or a
successfully parsed JSON dictionary. -/
inductive LLMOutcome where
  | failure (msg : String) : LLMOutcome
  | success (params : List (String × Json)) : LLMOutcome

/-- `extract_search_params_with_llm(natural_query)` (src/app.py lines
132-187), with the ambient `OPENAI_API_KEY` and the LLM interaction made
explicit.  With no API key it returns an error dictionary; on an LLM
failure it falls back to the truncated query as keyword; on success it
substitutes that fallback keyword whenever the returned `keyword` is
missing or falsy. -/
def extract_search_params_with_llm (apiKey : String) (natural_query : String)
    (llm : LLMOutcome) : List (String × Json) :=
  if apiKey = "" then [("error", Json.str keyMissingMsg)]
  else
    match llm with
    | .failure _ => [("keyword", Json.str (pySlice natural_query 50))]
    | .success params =>
        match dictGet params "keyword" with
        | none => dictSet params "keyword" (Json.str (pySlice natural_query 50))
        | some v =>
            if v.truthy then params
            else dictSet params "keyword" (Json.str (pySlice natural_query 50))

lemma pySlice_eq_empty_iff (s : String) (n : Nat) (hn : n ≠ 0) :
    pySlice s n = "" ↔ s = "" := by
  constructor
  · intro h
    have hdata : s.data.take n = [] := congrArg String.data h
    have hnil : s.data = [] := by
      rcases List.take_eq_nil_iff.mp hdata with h1 | h1
      · omega
      · exact h1
    obtain ⟨l⟩ := s
    simp only [String.data] at hnil
    rw [hnil]
  · intro h
    rw [h]
    show String.mk (([] : List Char).take n) = ""
    rw [List.take_nil]

/-- C1 counterexample: with no API key configured (a failing
language-understanding setup, "missing credentials"), extraction returns
an error dictionary with no keyword at all; and with a key configured but
an empty input, a failing LLM call yields an empty keyword.  Both refute
the claim that the result is always a query whose keyword is never
empty and that extraction never returns an error. -/
theorem extract_error_or_empty_keyword_cex :
    extract_search_params_with_llm "" "東京都の中小企業向けDX補助金"
        (LLMOutcome.failure "network error") =
      [("error", Json.str keyMissingMsg)] ∧
    dictGet (extract_search_params_with_llm "" "東京都の中小企業向けDX補助金"
        (LLMOutcome.failure "network error")) "keyword" = none ∧
    extract_search_params_with_llm "sk-test" ""
        (LLMOutcome.failure "quota exceeded") =
      [("keyword", Json.str "")] :=
  ⟨rfl, rfl, rfl⟩

/-- C1 amended: when an API key is configured, a failing
language-understanding call degrades to exactly
`[("keyword", input[:50])]` — never raising, with all optional fields
empty, and with a keyword that is empty only for empty input; when the key
is missing, extraction instead returns the error dictionary. -/
theorem extract_degrades_on_llm_failure (apiKey natural_query msg : String)
    (hk : apiKey ≠ "") :
    extract_search_params_with_llm apiKey natural_query
        (LLMOutcome.failure msg) =
      [("keyword", Json.str (pySlice natural_query 50))] ∧
    (natural_query ≠ "" → pySlice natural_query 50 ≠ "") ∧
    extract_search_params_with_llm "" natural_query (LLMOutcome.failure msg) =
      [("error", Json.str keyMissingMsg)] := by
  refine ⟨by simp [extract_search_params_with_llm, hk], ?_, by
    simp [extract_search_params_with_llm]⟩
  intro hq hcon
  exact hq ((pySlice_eq_empty_iff natural_query 50 (by omega)).mp hcon)

/-- Witness for C1's amended statement: a configured key and a failing LLM
call on a non-empty query. -/
theorem extract_degrades_on_llm_failure_witness :
    ("sk-test" : String) ≠ "" ∧
    (extract_search_params_with_llm "sk-test" "東京のDX補助金"
        (LLMOutcome.failure "timeout") =
      [("keyword", Json.str (pySlice "東京のDX補助金" 50))] ∧
    (("東京のDX補助金" : String) ≠ "" → pySlice "東京のDX補助金" 50 ≠ "") ∧
    extract_search_params_with_llm "" "東京のDX補助金"
        (LLMOutcome.failure "timeout") =
      [("error", Json.str keyMissingMsg)]) :=
  ⟨by decide, extract_degrades_on_llm_failure "sk-test" "東京のDX補助金" "timeout"
    (by decide)⟩

/-! ## `src/app.py` — the amount normalizer `format_amount` -/

/-- Python `s.replace(c, '')` for a single-character pattern: remove every
occurrence of the character. -/
def String.removeChar (s : String) (c : Char) : String :=
  ⟨s.data.filter (fun x => x ≠ c)⟩

/-- Python `str.strip()`: drop leading and trailing whitespace. -/
def pyStrip (s : String) : String :=
  ⟨(((s.data.dropWhile Char.isWhitespace).reverse).dropWhile
      Char.isWhitespace).reverse⟩

/-- The cleaning pipeline of src/app.py line 208:
`str(amount_str).replace(',','').replace('円','').replace('¥','').replace(' ','').strip()`. -/
def clean_amount (s : String) : String :=
  pyStrip ((((s.removeChar ',').removeChar '円').removeChar '¥').removeChar ' ')

/-- `format_amount(amount_str)` (src/app.py lines 201-220).  The behaviour
of Python's `float()` and of the `f"..:,.0f.."` thousands-separator
formatting are passed in as parameters `pyFloat` (partial: `none` models a
raised `ValueError`) and `pyFormat`; the `except` branch returns the
original string (the debug branch at lines 218-219 only logs). -/
def format_amount {α : Type} (pyFloat : String → Option α)
    (pyFormat : α → String) (amount_str : Option String) : String :=
  match amount_str with
  | none => "金額未定"
  | some s =>
      if s = "" then "金額未定"
      else
        let clean_str := clean_amount s
        if clean_str = "" then "金額未定"
        else
          match pyFloat clean_str with
          | some amount => pyFormat amount ++ "円"
          | none => s

/-- C8 counterexample: the input "円" is a malformed numeric string (it
cleans to the empty string, which `float()` cannot parse), yet
`format_amount` returns the placeholder "金額未定", not the original value
unchanged. -/
theorem format_amount_placeholder_cex :
    format_amount (fun _ : String => (none : Option Unit)) (fun _ => "")
        (some "円") = "金額未定" ∧
    ("金額未定" : String) ≠ "円" :=
  ⟨rfl, by decide⟩

/-- C8 amended: `format_amount` is total (the embedding returns on every
input); `None`, empty, and inputs whose cleaned form is empty yield the
placeholder "金額未定"; every other input whose cleaned form `float()`
cannot parse is returned unchanged as a string — never dropped, never
defaulted to zero. -/
theorem format_amount_total_passthrough {α : Type}
    (pyFloat : String → Option α) (pyFormat : α → String) (s : String)
    (hparse : pyFloat (clean_amount s) = none) :
    format_amount pyFloat pyFormat none = "金額未定" ∧
    format_amount pyFloat pyFormat (some "") = "金額未定" ∧
    (clean_amount s = "" → format_amount pyFloat pyFormat (some s) = "金額未定") ∧
    (s ≠ "" → clean_amount s ≠ "" → format_amount pyFloat pyFormat (some s) = s) := by
  refine ⟨rfl, rfl, ?_, ?_⟩
  · intro hc
    by_cases hs : s = ""
    · simp [format_amount, hs]
    · simp [format_amount, hs, hc]
  · intro hs hc
    simp [format_amount, hs, hc, hparse]

/-- Witness for C8's amended statement: the unparsable string "abc" passes
through unchanged. -/
theorem format_amount_total_passthrough_witness :
    ((fun _ : String => (none : Option Unit)) (clean_amount "abc") = none) ∧
    (format_amount (fun _ : String => (none : Option Unit)) (fun _ => "")
        none = "金額未定" ∧
    format_amount (fun _ : String => (none : Option Unit)) (fun _ => "")
        (some "") = "金額未定" ∧
    (clean_amount "abc" = "" →
      format_amount (fun _ : String => (none : Option Unit)) (fun _ => "")
        (some "abc") = "金額未定") ∧
    (("abc" : String) ≠ "" → clean_amount "abc" ≠ "" →
      format_amount (fun _ : String => (none : Option Unit)) (fun _ => "")
        (some "abc") = "abc")) :=
  ⟨rfl, format_amount_total_passthrough (fun _ => none) (fun _ => "") "abc" rfl⟩
